import Mathlib

/-!
Verification of the clinic-secretary conversational scheduling system.

This file gives a shallow embedding, in Lean, of the parts of the code that the
specified properties talk about:

- the database layer (src/tools/database_tools.py): appointments, creation,
  availability checking, status/datetime updates;
- the calendar agent (src/agents/calendar_agent.py): slot extraction from free
  text, the scheduling flow, availability lookup over business hours;
- the orchestrator agent (src/agents/orchestrator_agent.py): keyword intent
  classification and the per-intent conversation-state handlers;
- the external clients (src/tools/google_calendar_tools.py,
  src/tools/whatsapp_tools.py): their disabled/no-op behaviour when
  credentials are missing, and webhook message extraction.

Modelling conventions:
- datetimes are minutes since an epoch (Nat); a calendar date is a day index
  (Nat), so the datetime of day d at hour h is d * 1440 + h * 60;
- Python dictionaries with a fixed key set are structures of Option fields,
  and dict.update is a field-wise right-biased merge;
- the remote behaviour of the two external providers is modelled as data
  carried by the client value (the events a list call would return, the
  response an insert would get); claims about the clients only concern the
  branch where the client is disabled or the remote answer is fixed;
- user-visible response strings and the message log are not modelled: no
  verified property mentions them.
-/

namespace Clinic

/-- The apostrophe character, used to build keyword strings such as the
cancellation phrase for being unable to make it. -/
def apos : String := String.singleton (Char.ofNat 39)

/-- Helper for substring search: does the needle occur starting at any
position of the haystack? -/
def hasSubstrAux (needle : List Char) : List Char → Bool
  | [] => needle.isEmpty
  | l@(_ :: rest) => needle.isPrefixOf l || hasSubstrAux needle rest

/-- Python substring containment: needle occurs contiguously in hay
(the `in` operator on str). -/
def containsSubstr (hay needle : String) : Bool :=
  hasSubstrAux needle.toList hay.toList

/-- Python str.lower: character-wise lowercasing of the message. -/
def lowerString (s : String) : String :=
  ⟨s.data.map Char.toLower⟩

/-- Two-digit zero padding, Python f-string 02d format. -/
def pad2 (n : Nat) : String :=
  if n < 10 then "0" ++ toString n else toString n

/-- Split a character list at every occurrence of the separator (Python
str.split with an explicit separator). -/
def splitCharList (sep : Char) : List Char → List (List Char)
  | [] => [[]]
  | c :: rest =>
    if c == sep then [] :: splitCharList sep rest
    else
      match splitCharList sep rest with
      | [] => [[c]]
      | g :: gs => (c :: g) :: gs

/-- Numeric value of a digit string (int() on an all-digit string). -/
def digitsVal (l : List Char) : Nat :=
  l.foldl (fun n c => 10 * n + (c.toNat - 48)) 0

/-! ## Data model (src/models/appointment.py) -/

/-- AppointmentStatus enumeration from src/models/appointment.py. -/
inductive AppointmentStatus
  | scheduled
  | confirmed
  | completed
  | cancelled
  | no_show
deriving DecidableEq, Repr

/-- Appointment record from src/models/appointment.py; datetimes are minutes
since the epoch. -/
structure Appointment where
  id : Nat
  patient_id : Nat
  doctor_id : Nat
  appointment_datetime : Nat
  appointment_type : String
  status : AppointmentStatus
  notes : Option String
  created_at : Nat
  updated_at : Nat
deriving DecidableEq, Repr

/-- The appointments table plus the autoincrement counter for primary keys. -/
structure Db where
  appts : List Appointment
  nextId : Nat
deriving DecidableEq, Repr

/-- status.in_([SCHEDULED, CONFIRMED]) filter used by the queries. -/
def statusActive (s : AppointmentStatus) : Bool :=
  s == .scheduled || s == .confirmed

/-! ## DatabaseTools (src/tools/database_tools.py) -/

/-- DatabaseTools.create_appointment: inserts a new appointment with status
SCHEDULED and a fresh primary key, returning the inserted row. -/
def createAppointment (db : Db) (patient_id doctor_id : Nat)
    (appointment_datetime : Nat) (appointment_type : String)
    (notes : Option String) (now : Nat) : Appointment × Db :=
  let a : Appointment :=
    { id := db.nextId, patient_id := patient_id, doctor_id := doctor_id,
      appointment_datetime := appointment_datetime,
      appointment_type := appointment_type, status := .scheduled,
      notes := notes, created_at := now, updated_at := now }
  (a, { appts := db.appts ++ [a], nextId := db.nextId + 1 })

/-- DatabaseTools.get_appointment_details: first row with the given id. -/
def getAppointmentDetails (db : Db) (appointment_id : Nat) : Option Appointment :=
  db.appts.find? (fun a => a.id == appointment_id)

/-- DatabaseTools.check_doctor_availability: counts SCHEDULED/CONFIRMED
appointments of the doctor satisfying the two-disjunct overlap filter and
returns whether the count is zero. -/
def checkDoctorAvailability (db : Db) (doctor_id : Nat)
    (appointment_datetime : Nat) (duration_minutes : Nat) : Bool :=
  let end_time := appointment_datetime + duration_minutes
  (db.appts.countP (fun a =>
    a.doctor_id == doctor_id && statusActive a.status &&
    ((decide (a.appointment_datetime < end_time) &&
      decide (appointment_datetime ≤ a.appointment_datetime)) ||
     (decide (a.appointment_datetime ≤ appointment_datetime) &&
      decide (appointment_datetime < a.appointment_datetime + 60))))) == 0

/-- Insertion step for ordering a schedule by appointment datetime. -/
def insertByDt (a : Appointment) : List Appointment → List Appointment
  | [] => [a]
  | b :: rest =>
    if a.appointment_datetime ≤ b.appointment_datetime then a :: b :: rest
    else b :: insertByDt a rest

/-- order_by(Appointment.appointment_datetime) on a query result. -/
def sortByDt : List Appointment → List Appointment
  | [] => []
  | a :: rest => insertByDt a (sortByDt rest)

/-- DatabaseTools.get_doctor_schedule: the doctor's SCHEDULED/CONFIRMED
appointments falling on the given day, ordered by datetime. -/
def getDoctorSchedule (db : Db) (doctor_id : Nat) (day : Nat) : List Appointment :=
  let start_of_day := day * 1440
  let end_of_day := start_of_day + 1440
  sortByDt (db.appts.filter (fun a =>
    a.doctor_id == doctor_id &&
    decide (start_of_day ≤ a.appointment_datetime) &&
    decide (a.appointment_datetime < end_of_day) &&
    statusActive a.status))

/-- Replace the first element satisfying the predicate (the single ORM object
returned by .first() is mutated in place; the rest of the table is untouched). -/
def updateFirst (p : α → Bool) (f : α → α) : List α → List α
  | [] => []
  | x :: xs => if p x then f x :: xs else x :: updateFirst p f xs

/-- DatabaseTools.update_appointment_status: look the row up by id; if absent
return None leaving the table unchanged, else set status and updated_at. -/
def updateAppointmentStatus (db : Db) (appointment_id : Nat)
    (new_status : AppointmentStatus) (now : Nat) : Option Appointment × Db :=
  match getAppointmentDetails db appointment_id with
  | none => (none, db)
  | some a =>
    let upd := fun (b : Appointment) => { b with status := new_status, updated_at := now }
    (some (upd a),
     { db with appts := updateFirst (fun b => b.id == appointment_id) upd db.appts })

/-- DatabaseTools.update_appointment_datetime: look the row up by id; if absent
return None leaving the table unchanged, else set the datetime and updated_at. -/
def updateAppointmentDatetime (db : Db) (appointment_id : Nat)
    (new_datetime : Nat) (now : Nat) : Option Appointment × Db :=
  match getAppointmentDetails db appointment_id with
  | none => (none, db)
  | some a =>
    let upd := fun (b : Appointment) =>
      { b with appointment_datetime := new_datetime, updated_at := now }
    (some (upd a),
     { db with appts := updateFirst (fun b => b.id == appointment_id) upd db.appts })

/-! ## GoogleCalendarTools (src/tools/google_calendar_tools.py) -/

/-- The start field of a listed calendar event, after ISO parsing: an event
whose start string has no time component (no T separator) is all-day, the
others carry the parsed hour. -/
inductive EventStart
  | allDay
  | timed (hour : Nat)
deriving DecidableEq, Repr

/-- A calendar event as returned by list_events (only the fields the agent
reads are modelled). -/
structure CalEvent where
  id : String
  summary : String
  start : EventStart
deriving DecidableEq, Repr

/-- The provider response to an events().insert call. -/
structure CreatedEvent where
  id : String
deriving DecidableEq, Repr

/-- The remote calendar, as observed through an authenticated service: the
events a list call returns for the queried window, and the response an insert
would get (none models a failed provider call). -/
structure CalendarService where
  events : List CalEvent
  created : Option CreatedEvent
deriving DecidableEq, Repr

/-- GoogleCalendarTools: service is None when authentication failed. -/
structure GoogleCalendarTools where
  service : Option CalendarService
deriving DecidableEq, Repr

/-- GoogleCalendarTools.list_events: the empty list when there is no
authenticated service, otherwise the events the provider returns. -/
def listEvents (gc : GoogleCalendarTools) : List CalEvent :=
  match gc.service with
  | none => []
  | some s => s.events

/-- GoogleCalendarTools.create_event: None when there is no authenticated
service, otherwise the provider's response to the insert. -/
def createEvent (gc : GoogleCalendarTools) (summary : String)
    (start_time end_time : Nat) : Option CreatedEvent :=
  match gc.service with
  | none => none
  | some s => s.created

/-! ## WhatsAppTools (src/tools/whatsapp_tools.py) -/

/-- Python truthiness test on an optional string credential: None and the
empty string are falsy. -/
def isFalsy : Option String → Bool
  | none => true
  | some s => s.isEmpty

/-- WhatsAppTools: the Meta credentials read from the environment, and the
provider behaviour for a send (none models a RequestException, some mid a
successful post returning the message id). -/
structure WhatsAppTools where
  access_token : Option String
  phone_number_id : Option String
  provider : Option (Option String)
deriving DecidableEq, Repr

/-- Result dictionary of WhatsAppTools.send_text_message. -/
inductive SendResult
  | missingCredentials
  | sendFailure
  | sent (message_id : Option String)
deriving DecidableEq, Repr

/-- WhatsAppTools.send_text_message: with falsy credentials it returns the
missing-credentials error dictionary without attempting the request;
otherwise the provider outcome is converted to a success/failure result. -/
def sendTextMessage (wa : WhatsAppTools) (to_phone_number message_text : String) :
    SendResult :=
  if isFalsy wa.access_token || isFalsy wa.phone_number_id then .missingCredentials
  else
    match wa.provider with
    | none => .sendFailure
    | some mid => .sent mid

/-! ## Webhook payload extraction (src/tools/whatsapp_tools.py, src/main.py) -/

/-- One message inside a webhook change value. -/
structure WebhookMessage where
  type : String
  from_ : String
  id : String
  timestamp : String
  text : Option String
deriving DecidableEq, Repr

/-- The value object of a webhook change. -/
structure ChangeValue where
  messages : List WebhookMessage
deriving DecidableEq, Repr

/-- One change inside a webhook entry. -/
structure WebhookChange where
  value : ChangeValue
deriving DecidableEq, Repr

/-- One entry of a webhook payload. -/
structure WebhookEntry where
  changes : List WebhookChange
deriving DecidableEq, Repr

/-- An inbound webhook payload (a missing entry key is the empty list, as
webhook_data.get with a default produces). -/
structure WebhookData where
  object : String
  entry : List WebhookEntry
deriving DecidableEq, Repr

/-- The dictionary WhatsAppTools.extract_message_from_webhook builds for the
first text message found. -/
structure ExtractedMessage where
  from_ : String
  message_id : String
  timestamp : String
  text : String
  type : String
deriving DecidableEq, Repr

/-- WhatsAppTools.extract_message_from_webhook: None for a wrong object type
or an empty entry list; otherwise the first message of type text found while
walking entries, changes and messages in order. -/
def extractMessageFromWebhook (w : WebhookData) : Option ExtractedMessage :=
  if w.object != "whatsapp_business_account" then none
  else if w.entry.isEmpty then none
  else
    w.entry.findSome? (fun entry_item =>
      entry_item.changes.findSome? (fun change =>
        (change.value.messages.find? (fun m => m.type == "text")).map (fun m =>
          { from_ := m.from_, message_id := m.id, timestamp := m.timestamp,
            text := m.text.getD "", type := "text" })))

/-- Outcome of the POST /webhook handler in src/main.py, as far as the
extraction step decides it: the handler answers no_message when extraction
returns None, and otherwise hands the text and sender to the graph. -/
inductive WebhookResponse
  | no_message
  | processed (sender : String) (text : String)
deriving DecidableEq, Repr

/-- receive_webhook (src/main.py): the branch on the extraction result. -/
def receiveWebhook (w : WebhookData) : WebhookResponse :=
  match extractMessageFromWebhook w with
  | none => .no_message
  | some m => .processed m.from_ m.text

/-! ## Slot extraction (CalendarAgent._extract_scheduling_info) -/

/-- The reference clock datetime.now(): the current day index and its weekday
(0 = Monday, as Python weekday()). -/
structure Clock where
  day : Nat
  weekday : Nat
deriving DecidableEq, Repr

/-- The scheduling parameter dictionary (collected_params / extracted_info):
a fixed key set, each key either absent or bound. A combined datetime value
is a (day, hour) pair. -/
structure Params where
  patient_name : Option String
  patient_phone : Option String
  date : Option Nat
  time_preference : Option String
  time : Option String
  appointment_type : Option String
  doctor_specialty : Option String
  datetime : Option (Nat × Nat)
  notes : Option String
deriving DecidableEq, Repr

/-- The empty dictionary. -/
def emptyParams : Params :=
  { patient_name := none, patient_phone := none, date := none,
    time_preference := none, time := none, appointment_type := none,
    doctor_specialty := none, datetime := none, notes := none }

/-- dict.update: keys present in the second dictionary overwrite the first. -/
def mergeParams (c e : Params) : Params :=
  { patient_name := e.patient_name.orElse (fun _ => c.patient_name),
    patient_phone := e.patient_phone.orElse (fun _ => c.patient_phone),
    date := e.date.orElse (fun _ => c.date),
    time_preference := e.time_preference.orElse (fun _ => c.time_preference),
    time := e.time.orElse (fun _ => c.time),
    appointment_type := e.appointment_type.orElse (fun _ => c.appointment_type),
    doctor_specialty := e.doctor_specialty.orElse (fun _ => c.doctor_specialty),
    datetime := e.datetime.orElse (fun _ => c.datetime),
    notes := e.notes.orElse (fun _ => c.notes) }

/-- The this-week branch: the first offset 0..6 whose weekday is Monday to
Friday. -/
def thisWeekOffset (w : Nat) : Option Nat :=
  [0, 1, 2, 3, 4, 5, 6].find? (fun k => decide ((w + k) % 7 < 5))

/-- Relative-date words resolved against the clock, in source order. -/
def extractDate (ml : String) (clk : Clock) : Option Nat :=
  if containsSubstr ml "today" then some clk.day
  else if containsSubstr ml "tomorrow" then some (clk.day + 1)
  else if containsSubstr ml "next week" then some (clk.day + 7)
  else if containsSubstr ml "this week" then
    (thisWeekOffset clk.weekday).map (fun k => clk.day + k)
  else none

/-- Time-of-day words: the (time_preference, time) pair set by the if/elif
chain over morning/afternoon/evening/early/late. -/
def baseTimePref (ml : String) : Option String × Option String :=
  if containsSubstr ml "morning" then (some "morning", some "09:00")
  else if containsSubstr ml "afternoon" then (some "afternoon", some "14:00")
  else if containsSubstr ml "evening" then (some "evening", some "17:00")
  else if containsSubstr ml "early" then (some "early", some "08:00")
  else if containsSubstr ml "late" then (some "late", some "16:00")
  else (none, none)

/-- Numeric value of an ASCII digit. -/
def digitVal (c : Char) : Nat := c.toNat - 48

/-- The first regex match of one-or-two digits in the message (the group of
the findall over the numeric time pattern): at the first digit encountered,
greedily take a second digit when present. -/
def firstNumber : List Char → Option Nat
  | [] => none
  | c :: rest =>
    if c.isDigit then
      match rest with
      | d :: _ =>
        if d.isDigit then some (10 * digitVal c + digitVal d)
        else some (digitVal c)
      | [] => some (digitVal c)
    else firstNumber rest

/-- The am/pm adjustment applied to the matched hour. -/
def adjustHour (ml : String) (h : Nat) : Nat :=
  if containsSubstr ml "pm" && decide (h < 12) then h + 12
  else if containsSubstr ml "am" && h == 12 then 0
  else h

/-- The HH:00 string the extractor stores under the time key. -/
def hourToTimeString (h : Nat) : String := pad2 h ++ ":00"

/-- The time value after both the word chain and the numeric pattern: a
numeric match overwrites the word-derived time. -/
def extractedTime (ml : String) : Option String :=
  match firstNumber ml.toList with
  | some h => some (hourToTimeString (adjustHour ml h))
  | none => (baseTimePref ml).2

/-- Appointment type keyword families, in source (insertion) order. -/
def appointmentTypes : List (String × List String) :=
  [("consultation", ["consultation", "consult", "visit", "see doctor"]),
   ("checkup", ["checkup", "check up", "check-up", "physical", "exam", "examination"]),
   ("follow-up", ["follow up", "follow-up", "followup", "follow"]),
   ("emergency", ["emergency", "urgent", "immediate"]),
   ("routine", ["routine", "regular", "annual", "yearly"]),
   ("specialist", ["specialist", "specialty", "specialized"])]

/-- First appointment-type family one of whose keywords occurs in the
message. -/
def extractApptType (ml : String) : Option String :=
  (appointmentTypes.find? (fun p => p.2.any (fun kw => containsSubstr ml kw))).map
    (fun p => p.1)

/-- Doctor specialty keyword list, in source order. -/
def specialties : List String :=
  ["general", "family", "internal medicine", "cardiology", "dermatology",
   "orthopedics", "pediatrics", "gynecology", "neurology", "psychiatry"]

/-- First specialty occurring in the message. -/
def extractSpecialty (ml : String) : Option String :=
  specialties.find? (fun s => containsSubstr ml s)

/-- strptime of the date plus HH:MM time string: succeeds exactly when the
hour field is one or two digits at most 23 and the minute field at most 59;
failure is swallowed (the datetime key stays absent). -/
def parseTimeHour (s : String) : Option Nat :=
  match splitCharList ':' s.toList with
  | [hs, ms] =>
    if !hs.isEmpty && !ms.isEmpty && hs.all Char.isDigit && ms.all Char.isDigit
        && decide (hs.length ≤ 2) && decide (ms.length ≤ 2)
        && decide (digitsVal hs ≤ 23) && decide (digitsVal ms ≤ 59) then
      some (digitsVal hs)
    else none
  | _ => none

/-- Combine date and time when both are present, dropping the pair on a parse
failure. -/
def combineDatetime (d : Option Nat) (t : Option String) : Option (Nat × Nat) :=
  match d, t with
  | some day, some ts => (parseTimeHour ts).map (fun h => (day, h))
  | _, _ => none

/-- CalendarAgent._extract_scheduling_info: the dictionary of slots recognized
in one message, given the reference clock. -/
def extractSchedulingInfo (user_message : String) (clk : Clock) : Params :=
  let ml := lowerString user_message
  let date := extractDate ml clk
  let time := extractedTime ml
  { patient_name := none, patient_phone := none,
    date := date,
    time_preference := (baseTimePref ml).1,
    time := time,
    appointment_type := extractApptType ml,
    doctor_specialty := extractSpecialty ml,
    datetime := combineDatetime date time,
    notes := none }

/-! ## Scheduling flow (CalendarAgent) -/

/-- Dictionary-key membership test used for `param not in collected_params`:
a key the extractor and handlers never write is never present. -/
def hasParam (p : Params) (k : String) : Bool :=
  if k == "patient_name" then p.patient_name.isSome
  else if k == "patient_phone" then p.patient_phone.isSome
  else if k == "date" then p.date.isSome
  else if k == "time_preference" then p.time_preference.isSome
  else if k == "time" then p.time.isSome
  else if k == "appointment_type" then p.appointment_type.isSome
  else if k == "doctor_specialty" then p.doctor_specialty.isSome
  else if k == "datetime" then p.datetime.isSome
  else if k == "notes" then p.notes.isSome
  else false

/-- Minutes since the epoch of a combined (day, hour) value. -/
def dtToMinutes (dt : Nat × Nat) : Nat := dt.1 * 1440 + dt.2 * 60

/-- The result dictionary returned by the scheduling flow (the response text
is not modelled; keys absent from a branch are none). -/
structure SchedulingResult where
  collected_params : Params
  required_params : List String
  status : String
  appointment_id : Option Nat
  calendar_event_id : Option String
deriving DecidableEq, Repr

/-- CalendarAgent._schedule_appointment: without a combined datetime, ask
again (collecting_info); with one, insert the appointment (placeholder
patient and doctor ids 1), attempt the calendar event, and report completed
with the inserted primary key. -/
def scheduleAppointment (params : Params) (gc : GoogleCalendarTools)
    (db : Db) (now : Nat) : SchedulingResult × Db :=
  match params.datetime with
  | none =>
    ({ collected_params := params, required_params := ["datetime"],
       status := "collecting_info", appointment_id := none,
       calendar_event_id := none }, db)
  | some dt =>
    let created := createAppointment db 1 1 (dtToMinutes dt)
      (params.appointment_type.getD "consultation") params.notes now
    let calendar_event := createEvent gc
      ("Appointment: " ++ params.patient_name.getD "Patient")
      (dtToMinutes dt) (dtToMinutes dt + 60)
    ({ collected_params := params, required_params := [],
       status := "completed", appointment_id := some created.1.id,
       calendar_event_id := calendar_event.map (fun e => e.id) }, created.2)

/-- CalendarAgent.process_scheduling_request: extract, merge into the
collected slots, compute the missing required slots; ask for them when any
remain, otherwise finalize the booking. -/
def processSchedulingRequest (user_message : String) (collected : Params)
    (required : List String) (gc : GoogleCalendarTools) (db : Db)
    (clk : Clock) (now : Nat) : SchedulingResult × Db :=
  let extracted := extractSchedulingInfo user_message clk
  let merged := mergeParams collected extracted
  let missing := required.filter (fun p => !(hasParam merged p))
  if missing.isEmpty then scheduleAppointment merged gc db now
  else
    ({ collected_params := merged, required_params := required,
       status := "collecting_info", appointment_id := none,
       calendar_event_id := none }, db)

/-! ## Availability lookup (CalendarAgent.check_availability) -/

/-- The hour of day of a minutes-since-epoch datetime. -/
def hourOfMinutes (t : Nat) : Nat := t / 60 % 24

/-- strftime of a slot at the given hour with the 12-hour clock format:
zero-padded 12-hour value, minutes 00, AM/PM marker. -/
def formatSlot (h : Nat) : String :=
  pad2 (if h % 12 == 0 then 12 else h % 12) ++ ":00 " ++
    (if h < 12 then "AM" else "PM")

/-- CalendarAgent._find_available_slots: every business hour 9..16 that does
not collide with a persisted appointment starting in that hour nor with a
time-qualified calendar event starting in that hour, formatted 12-hour. -/
def findAvailableSlots (db_schedule : List Appointment)
    (calendar_events : List CalEvent) (date : Nat) : List String :=
  ((List.range' 9 8).filter (fun hour =>
    !(db_schedule.any (fun a => hourOfMinutes a.appointment_datetime == hour)) &&
    !(calendar_events.any (fun e =>
        match e.start with
        | .timed h => h == hour
        | .allDay => false)))).map formatSlot

/-- CalendarAgent.check_availability: the doctor's day schedule and the
listed calendar events combined into the free-slot list, with status
success. -/
def checkAvailability (db : Db) (gc : GoogleCalendarTools)
    (doctor_id : Nat) (date : Nat) : List String × String :=
  let schedule := getDoctorSchedule db doctor_id date
  let calendar_events := listEvents gc
  (findAvailableSlots schedule calendar_events date, "success")

/-! ## OrchestratorAgent (src/agents/orchestrator_agent.py) -/

/-- The cancellation phrase for being unable to attend, built with the
apostrophe character. -/
def cantMakeIt : String := "can" ++ apos ++ "t make it"

/-- The emergency phrase for being unable to wait, built with the apostrophe
character. -/
def cantWait : String := "can" ++ apos ++ "t wait"

/-- The contracted first-person pronoun used in the name-extraction word
list, built with the apostrophe character. -/
def imWord : String := "i" ++ apos ++ "m"

/-- OrchestratorAgent scheduling intent keywords. -/
def schedulingKeywords : List String :=
  ["schedule", "book", "appointment", "make appointment", "set up",
   "reserve", "book time", "schedule visit", "make reservation",
   "need to see", "want to see", "see doctor", "visit doctor",
   "checkup", "consultation", "follow-up", "examination"]

/-- OrchestratorAgent information intent keywords. -/
def informationKeywords : List String :=
  ["information", "info", "details", "about", "what", "how", "when",
   "where", "hours", "address", "phone", "contact", "specialist",
   "specialty", "doctor", "physician", "service", "offer", "available",
   "know", "tell me", "show me", "find out", "learn about"]

/-- OrchestratorAgent cancellation/modification intent keywords. -/
def cancellationKeywords : List String :=
  ["cancel", "reschedule", "change", "modify", "postpone", "move",
   "different time", "different date", "not available", cantMakeIt,
   "need to cancel", "want to cancel", "have to cancel"]

/-- OrchestratorAgent appointment-check intent keywords. -/
def appointmentCheckKeywords : List String :=
  ["my appointment", "check appointment", "appointment status",
   "when is my", "what time", "confirmation", "reminder",
   "appointments", "my schedule", "upcoming", "check on my",
   "check on my appointment", "my apppointments", "my apppointment"]

/-- OrchestratorAgent emergency intent keywords. -/
def emergencyKeywords : List String :=
  ["emergency", "urgent", "immediate", "critical", "pain", "hurt",
   "serious", "bad", "worse", cantWait, "need help now"]

/-- The personal-question phrases tested second in detect_intent. -/
def personalQuestionWords : List String :=
  ["do you know me", "remember me", "my name", "who am i"]

/-- OrchestratorAgent.detect_intent: lowercase the message and test the
keyword lists in fixed priority order, emergency first; default to general
conversation. -/
def detectIntent (user_message : String) : String :=
  let ml := lowerString user_message
  if emergencyKeywords.any (fun kw => containsSubstr ml kw) then "emergency"
  else if personalQuestionWords.any (fun w => containsSubstr ml w) then "personal_question"
  else if cancellationKeywords.any (fun kw => containsSubstr ml kw) then "modify_appointment"
  else if appointmentCheckKeywords.any (fun kw => containsSubstr ml kw) then "check_appointment"
  else if schedulingKeywords.any (fun kw => containsSubstr ml kw) then "schedule_appointment"
  else if informationKeywords.any (fun kw => containsSubstr ml kw) then "get_information"
  else "general_conversation"

/-- The conversation-state dictionary, restricted to the keys the verified
properties mention. collected_params and required_params are optional at the
state level because the scheduling handler tests key presence before
filling them in; the message log and conversation context counters are not
modelled. -/
structure ConvState where
  intent : String
  collected_params : Option Params
  required_params : Option (List String)
  status : String
  modification_mode : Bool
deriving DecidableEq, Repr

/-- conversation_state.get collected_params, {} .get patient_name. -/
def statePatientName (st : ConvState) : Option String :=
  match st.collected_params with
  | none => none
  | some c => c.patient_name

/-- conversation_state.get collected_params, {} .get patient_phone. -/
def statePatientPhone (st : ConvState) : Option String :=
  match st.collected_params with
  | none => none
  | some c => c.patient_phone

/-- Python truthiness of an optional string value: absent and empty are
falsy. -/
def truthy : Option String → Bool
  | none => false
  | some s => !s.isEmpty

/-- The required-parameter checklist installed by the scheduling handler. -/
def defaultRequiredParams : List String :=
  ["patient_name", "patient_phone", "date", "time", "doctor_specialty",
   "appointment_type"]

/-- The leading words after which the scheduling handler tries to read a
name. -/
def nameLeadWords : List String := ["my", imWord, "i", "this", "the"]

/-- The second words after which the scheduling handler reads the name. -/
def nameLinkWords : List String := ["name", "is", "am"]

/-- Python str.split with no argument: split on whitespace runs, discarding
empty pieces. -/
def splitWords (s : String) : List String :=
  (s.split Char.isWhitespace).filter (fun w => !w.isEmpty)

/-- The simple name extraction at the top of _handle_scheduling: when no name
is collected and the message starts with a lead word followed by a link word
and at least one further word, take the next two words as the name. -/
def extractNameFromMessage (user_message : String) (collected : Params) : Params :=
  if collected.patient_name.isSome then collected
  else
    match splitWords user_message with
    | w0 :: w1 :: rest =>
      if nameLeadWords.contains (lowerString w0) && nameLinkWords.contains (lowerString w1)
          && !rest.isEmpty then
        { collected with patient_name := some (String.intercalate " " (rest.take 2)) }
      else collected
    | _ => collected

/-- OrchestratorAgent._handle_scheduling: install missing slot-tracking
keys, run name extraction, delegate to the calendar agent, and copy its
collected/required/status back into the state. -/
def handleScheduling (user_message : String) (st : ConvState)
    (gc : GoogleCalendarTools) (db : Db) (clk : Clock) (now : Nat) :
    ConvState × Db :=
  let collected0 := match st.collected_params with
    | none => emptyParams
    | some c => c
  let required0 := match st.required_params with
    | none => defaultRequiredParams
    | some r => r
  let collected1 := extractNameFromMessage user_message collected0
  let result := processSchedulingRequest user_message collected1 required0 gc db clk now
  ({ st with collected_params := some result.1.collected_params,
             required_params := some result.1.required_params,
             status := result.1.status }, result.2)

/-- OrchestratorAgent._handle_modification_request: always switch on
modification mode, set the required slots to name and phone, and clear the
collected slots. -/
def handleModificationRequest (st : ConvState) : ConvState :=
  { st with modification_mode := true,
            required_params := some ["patient_name", "patient_phone"],
            collected_params := some emptyParams }

/-- OrchestratorAgent._handle_appointment_check: with a truthy name and phone
look the appointments up (a read; the modelled state fields are unchanged),
otherwise ask for name and phone, resetting the slot tracking. -/
def handleAppointmentCheck (st : ConvState) : ConvState :=
  if truthy (statePatientName st) && truthy (statePatientPhone st) then st
  else
    { st with required_params := some ["patient_name", "patient_phone"],
              collected_params := some emptyParams }

/-- OrchestratorAgent._handle_personal_question: with a truthy name only a
response is produced; otherwise the required slots become the name alone and
the collected slots are cleared. -/
def handlePersonalQuestion (st : ConvState) : ConvState :=
  if truthy (statePatientName st) then st
  else
    { st with required_params := some ["patient_name"],
              collected_params := some emptyParams }

/-- OrchestratorAgent.process_message: detect the intent, record it in the
state, and dispatch to the handler for that intent (information, emergency
and general conversation only produce response text, which is not
modelled). -/
def processMessage (user_message : String) (st0 : ConvState)
    (gc : GoogleCalendarTools) (db : Db) (clk : Clock) (now : Nat) :
    ConvState × Db :=
  let intent := detectIntent user_message
  let st := { st0 with intent := intent }
  if intent == "schedule_appointment" then handleScheduling user_message st gc db clk now
  else if intent == "get_information" then (st, db)
  else if intent == "modify_appointment" then (handleModificationRequest st, db)
  else if intent == "check_appointment" then (handleAppointmentCheck st, db)
  else if intent == "emergency" then (st, db)
  else if intent == "personal_question" then (handlePersonalQuestion st, db)
  else (st, db)

/-! ## Helper lemmas -/

/-- A right-biased dictionary merge is idempotent in its second argument,
field by field. -/
lemma orElse_update_idem (a b : Option α) :
    a.orElse (fun _ => a.orElse fun _ => b) = a.orElse fun _ => b := by
  cases a <;> rfl

/-- The SCHEDULED/CONFIRMED boolean filter, as a proposition. -/
lemma statusActive_iff (s : AppointmentStatus) :
    statusActive s = true ↔ s = .scheduled ∨ s = .confirmed := by
  cases s <;> simp [statusActive]

/-! ## Theorems for the verified properties -/

/-- C2: a message containing any emergency keyword (case-insensitive
substring match) is classified as emergency, whatever other intent keywords
it contains. -/
theorem C2_theorem (msg : String)
    (h : emergencyKeywords.any (fun kw => containsSubstr (lowerString msg) kw) = true) :
    detectIntent msg = "emergency" := by
  simp [detectIntent, h]

theorem C2_witness :
    emergencyKeywords.any (fun kw => containsSubstr (lowerString "i am in pain, but please schedule a checkup") kw) = true ∧
    detectIntent "i am in pain, but please schedule a checkup" = "emergency" :=
  ⟨by decide, C2_theorem "i am in pain, but please schedule a checkup" (by decide)⟩

/-- C5: slot extraction is idempotent under merging: re-extracting the same
message with the same clock and merging again leaves the merged dictionary
unchanged. -/
theorem C5_theorem (msg : String) (clk : Clock) (c : Params) :
    mergeParams (mergeParams c (extractSchedulingInfo msg clk))
        (extractSchedulingInfo msg clk)
      = mergeParams c (extractSchedulingInfo msg clk) := by
  generalize extractSchedulingInfo msg clk = e
  simp [mergeParams, orElse_update_idem]

/-- C6: for a message with a matched numeric hour, a pm marker with hour
below 12 yields hour+12, and an am marker with hour 12 yields 0. -/
theorem C6_theorem (msg : String) (clk : Clock) (h : Nat)
    (hnum : firstNumber (lowerString msg).toList = some h) :
    (containsSubstr (lowerString msg) "pm" = true → h < 12 →
      (extractSchedulingInfo msg clk).time = some (hourToTimeString (h + 12))) ∧
    (containsSubstr (lowerString msg) "am" = true → h = 12 →
      (extractSchedulingInfo msg clk).time = some (hourToTimeString 0)) := by
  have harr : firstNumber (lowerString msg).data = some h := hnum
  constructor
  · intro hpm hlt
    simp [extractSchedulingInfo, extractedTime, harr, adjustHour, hpm, hlt]
  · intro ham h12
    subst h12
    simp [extractSchedulingInfo, extractedTime, harr, adjustHour, ham]

theorem C6_witness :
    (extractSchedulingInfo "see me at 3 pm" ⟨0, 0⟩).time
      = some (hourToTimeString (3 + 12)) :=
  ( C6_theorem "see me at 3 pm" ⟨0, 0⟩ 3 (by decide)).1 (by decide) (by decide)

/-- C8: a calendar client without an authenticated service lists no events
and creates no event; a messaging client with falsy credentials answers the
missing-credentials result instead of raising. -/
theorem C8_theorem (gc : GoogleCalendarTools) (wa : WhatsAppTools)
    (summary : String) (start_time end_time : Nat)
    (to_phone message_text : String)
    (hgc : gc.service = none)
    (hwa : isFalsy wa.access_token = true ∨ isFalsy wa.phone_number_id = true) :
    listEvents gc = [] ∧ createEvent gc summary start_time end_time = none ∧
    sendTextMessage wa to_phone message_text = .missingCredentials := by
  refine ⟨?_, ?_, ?_⟩
  · simp [listEvents, hgc]
  · simp [createEvent, hgc]
  · rcases hwa with h | h <;> simp [sendTextMessage, h]

theorem C8_witness :
    listEvents ⟨none⟩ = [] ∧ createEvent ⟨none⟩ "Appointment" 540 600 = none ∧
    sendTextMessage { access_token := none, phone_number_id := some "77",
                      provider := some (some "m1") } "5551234" "hello"
      = .missingCredentials :=
  C8_theorem ⟨none⟩
    { access_token := none, phone_number_id := some "77", provider := some (some "m1") }
    "Appointment" 540 600 "5551234" "hello" rfl (Or.inl rfl)

/-- C7: a payload with the wrong object type, an empty entry list, or no
message of type text extracts to None and the webhook handler answers
no_message. -/
theorem C7_theorem (w : WebhookData)
    (h : w.object ≠ "whatsapp_business_account" ∨ w.entry = [] ∨
         ∀ e ∈ w.entry, ∀ c ∈ e.changes, ∀ m ∈ c.value.messages, m.type ≠ "text") :
    extractMessageFromWebhook w = none ∧ receiveWebhook w = .no_message := by
  have hx : extractMessageFromWebhook w = none := by
    unfold extractMessageFromWebhook
    rcases h with h | h | h
    · simp [h]
    · simp [h]
    · split
      · rfl
      · split
        · rfl
        · rw [List.findSome?_eq_none_iff]
          intro e he
          rw [List.findSome?_eq_none_iff]
          intro c hc
          rw [Option.map_eq_none', List.find?_eq_none]
          intro m hm
          simpa using h e he c hc m hm
  exact ⟨hx, by simp [receiveWebhook, hx]⟩

theorem C7_witness :
    extractMessageFromWebhook { object := "page", entry := [] } = none ∧
    receiveWebhook { object := "page", entry := [] } = .no_message :=
  C7_theorem { object := "page", entry := [] } (Or.inl (by decide))

/-- C9: a message classified as modify_appointment makes the processed state
carry exactly the name-and-phone required-slot list with an empty collected
map, whatever was collected before; the appointment-check handler resets the
same way whenever name or phone is not yet collected. -/
theorem C9_theorem (msg : String) (st : ConvState) (gc : GoogleCalendarTools)
    (db : Db) (clk : Clock) (now : Nat)
    (hint : detectIntent msg = "modify_appointment") :
    ((processMessage msg st gc db clk now).1.required_params
        = some ["patient_name", "patient_phone"] ∧
     (processMessage msg st gc db clk now).1.collected_params = some emptyParams) ∧
    ∀ st2 : ConvState,
      statePatientName st2 = none ∨ statePatientPhone st2 = none →
      (handleAppointmentCheck st2).required_params
          = some ["patient_name", "patient_phone"] ∧
      (handleAppointmentCheck st2).collected_params = some emptyParams := by
  constructor
  · simp [processMessage, hint, handleModificationRequest]
  · intro st2 h2
    rcases h2 with h2 | h2 <;> simp [handleAppointmentCheck, truthy, h2]

theorem C9_witness :
    (processMessage "please cancel it"
        { intent := "", collected_params := some
            { emptyParams with patient_name := some "Bob", date := some 3 },
          required_params := some ["date"], status := "collecting_info",
          modification_mode := false }
        ⟨none⟩ { appts := [], nextId := 1 } ⟨0, 0⟩ 0).1.required_params
      = some ["patient_name", "patient_phone"] :=
  (( C9_theorem "please cancel it"
      { intent := "", collected_params := some
          { emptyParams with patient_name := some "Bob", date := some 3 },
        required_params := some ["date"], status := "collecting_info",
        modification_mode := false }
      ⟨none⟩ { appts := [], nextId := 1 } ⟨0, 0⟩ 0 (by decide)).1).1

/-- Mapping the conditional update over a list none of whose elements match
leaves it unchanged. -/
lemma map_if_id (aid : Nat) (f : Appointment → Appointment)
    (l : List Appointment) (h : ∀ b ∈ l, b.id ≠ aid) :
    l.map (fun b => if b.id = aid then f b else b) = l := by
  induction l with
  | nil => rfl
  | cons x xs ih =>
    simp only [List.map_cons, if_neg (h x (List.mem_cons_self x xs))]
    rw [ih fun b hb => h b (List.mem_cons_of_mem x hb)]

/-- With pairwise distinct ids, updating the first row matching an id is the
same as updating every row matching it. -/
lemma updateFirst_eq_map (f : Appointment → Appointment) (aid : Nat)
    (l : List Appointment) (hnd : (l.map (fun a => a.id)).Nodup) :
    updateFirst (fun b => b.id == aid) f l
      = l.map (fun b => if b.id = aid then f b else b) := by
  induction l with
  | nil => rfl
  | cons x xs ih =>
    rw [List.map_cons, List.nodup_cons] at hnd
    by_cases hx : x.id = aid
    · have hnotin : ∀ b ∈ xs, b.id ≠ aid := by
        intro b hb hbe
        exact hnd.1 (by rw [hx, ← hbe]; exact List.mem_map_of_mem _ hb)
      simp only [updateFirst, List.map_cons, if_pos hx, beq_iff_eq, if_pos hx]
      rw [map_if_id aid f xs hnotin]
    · have hpx : (x.id == aid) = false := by simp [hx]
      simp only [updateFirst, List.map_cons, hpx, Bool.false_eq_true,
        if_neg, if_neg hx]
      rw [ih hnd.2]
      simp

/-- C10: an update by an unknown id returns None and leaves the table
untouched; by a known id, only the targeted row changes, and only in its
status (respectively datetime) and updated_at fields. -/
theorem C10_theorem (db : Db) (aid : Nat) (new_status : AppointmentStatus)
    (new_dt now : Nat)
    (hnd : (db.appts.map (fun a => a.id)).Nodup) :
    (getAppointmentDetails db aid = none →
      updateAppointmentStatus db aid new_status now = (none, db) ∧
      updateAppointmentDatetime db aid new_dt now = (none, db)) ∧
    ∀ a, getAppointmentDetails db aid = some a →
      (updateAppointmentStatus db aid new_status now).1
          = some { a with status := new_status, updated_at := now } ∧
      (updateAppointmentStatus db aid new_status now).2.appts
          = db.appts.map (fun b =>
              if b.id = aid then { b with status := new_status, updated_at := now }
              else b) ∧
      (updateAppointmentStatus db aid new_status now).2.nextId = db.nextId ∧
      (updateAppointmentDatetime db aid new_dt now).1
          = some { a with appointment_datetime := new_dt, updated_at := now } ∧
      (updateAppointmentDatetime db aid new_dt now).2.appts
          = db.appts.map (fun b =>
              if b.id = aid then { b with appointment_datetime := new_dt, updated_at := now }
              else b) ∧
      (updateAppointmentDatetime db aid new_dt now).2.nextId = db.nextId := by
  constructor
  · intro h
    simp [updateAppointmentStatus, updateAppointmentDatetime, h]
  · intro a ha
    have h1 := updateFirst_eq_map
      (fun b => { b with status := new_status, updated_at := now }) aid db.appts hnd
    have h2 := updateFirst_eq_map
      (fun b => { b with appointment_datetime := new_dt, updated_at := now }) aid db.appts hnd
    simp [updateAppointmentStatus, updateAppointmentDatetime, ha, h1, h2]

theorem C10_witness :
    (updateAppointmentStatus
        { appts := [{ id := 5, patient_id := 1, doctor_id := 2,
                      appointment_datetime := 600,
                      appointment_type := "consultation",
                      status := .scheduled, notes := none,
                      created_at := 0, updated_at := 0 }], nextId := 6 }
        5 .confirmed 99).1
      = some { id := 5, patient_id := 1, doctor_id := 2,
               appointment_datetime := 600,
               appointment_type := "consultation",
               status := .confirmed, notes := none,
               created_at := 0, updated_at := 99 } :=
  ((C10_theorem
      { appts := [{ id := 5, patient_id := 1, doctor_id := 2,
                    appointment_datetime := 600,
                    appointment_type := "consultation",
                    status := .scheduled, notes := none,
                    created_at := 0, updated_at := 0 }], nextId := 6 }
      5 .confirmed 777 99 (by decide)).2
    { id := 5, patient_id := 1, doctor_id := 2, appointment_datetime := 600,
      appointment_type := "consultation", status := .scheduled, notes := none,
      created_at := 0, updated_at := 0 } (by decide)).1

/-- A database holding one scheduled appointment of doctor 1 at 10:00 of
day 0 (minute 600). -/
def cx1Db : Db :=
  { appts := [{ id := 1, patient_id := 1, doctor_id := 1,
                appointment_datetime := 600,
                appointment_type := "consultation", status := .scheduled,
                notes := none, created_at := 0, updated_at := 0 }],
    nextId := 2 }

/-- A fully collected parameter set asking for the same 10:00 slot of day 0. -/
def cx1Params : Params :=
  { emptyParams with patient_name := some "John Doe",
                     patient_phone := some "5551234",
                     datetime := some (0, 10) }

/-- C1 as stated is false: at a booking whose requested time overlaps an
existing scheduled appointment of the same doctor, the overlap check (which
would report a conflict) is not consulted by the scheduling flow; the flow
completes and inserts, leaving the doctor with two overlapping non-cancelled
appointments. -/
theorem C1_counterexample :
    checkDoctorAvailability cx1Db 1 600 60 = false ∧
    (scheduleAppointment cx1Params ⟨none⟩ cx1Db 0).1.status = "completed" ∧
    (scheduleAppointment cx1Params ⟨none⟩ cx1Db 0).2.appts.countP
        (fun a => a.doctor_id == 1 && statusActive a.status &&
          decide (a.appointment_datetime < 600 + 60) &&
          decide (600 < a.appointment_datetime + 60)) = 2 := by
  decide

/-- C1 amended: check_doctor_availability does report exactly whether the
doctor holds a SCHEDULED/CONFIRMED appointment whose one-hour window
overlaps the requested one, but the scheduling flow never invokes it — with
a combined datetime present, it appends the new appointment unconditionally. -/
theorem C1_theorem (db : Db) (did t : Nat) (params : Params) (dt : Nat × Nat)
    (gc : GoogleCalendarTools) (now : Nat)
    (hdt : params.datetime = some dt) :
    (checkDoctorAvailability db did t 60 = true ↔
      ∀ a ∈ db.appts, a.doctor_id = did →
        (a.status = .scheduled ∨ a.status = .confirmed) →
        ¬(a.appointment_datetime < t + 60 ∧ t < a.appointment_datetime + 60)) ∧
    (scheduleAppointment params gc db now).2.appts
      = db.appts ++
        [{ id := db.nextId, patient_id := 1, doctor_id := 1,
           appointment_datetime := dtToMinutes dt,
           appointment_type := params.appointment_type.getD "consultation",
           status := .scheduled, notes := params.notes,
           created_at := now, updated_at := now }] := by
  constructor
  · unfold checkDoctorAvailability
    rw [beq_iff_eq, List.countP_eq_zero]
    constructor
    · intro H a ha hdid hst hov
      apply H a ha
      simp only [Bool.and_eq_true, Bool.or_eq_true, decide_eq_true_eq,
        beq_iff_eq, statusActive_iff]
      exact ⟨⟨hdid, hst⟩, by omega⟩
    · intro H a ha hb
      simp only [Bool.and_eq_true, Bool.or_eq_true, decide_eq_true_eq,
        beq_iff_eq, statusActive_iff] at hb
      exact H a ha hb.1.1 hb.1.2 (by omega)
  · simp [scheduleAppointment, hdt, createAppointment]

theorem C1_witness :
    (scheduleAppointment cx1Params ⟨none⟩ cx1Db 0).2.appts
      = cx1Db.appts ++
        [{ id := cx1Db.nextId, patient_id := 1, doctor_id := 1,
           appointment_datetime := dtToMinutes (0, 10),
           appointment_type := cx1Params.appointment_type.getD "consultation",
           status := .scheduled, notes := cx1Params.notes,
           created_at := 0, updated_at := 0 }] :=
  (C1_theorem cx1Db 1 600 cx1Params (0, 10) ⟨none⟩ 0 rfl).2

/-- A database holding one scheduled appointment of doctor 1 at 10:00 of
day 0, for the availability scenario. -/
def cx3Db : Db :=
  { appts := [{ id := 1, patient_id := 1, doctor_id := 1,
                appointment_datetime := 600,
                appointment_type := "checkup", status := .scheduled,
                notes := none, created_at := 0, updated_at := 0 }],
    nextId := 2 }

/-- A calendar client whose provider returns no events for the queried day. -/
def cx3Gc : GoogleCalendarTools :=
  ⟨some { events := [], created := some { id := "evt1" } }⟩

/-- C3 as stated is false: with exactly one persisted appointment at 10:00
and no calendar events, the scenario is met but the availability lookup
returns seven slots, not eight (the 09:00 to 17:00 window holds eight hours
and the 10:00 one is excluded). -/
theorem C3_counterexample :
    getDoctorSchedule cx3Db 1 0 = cx3Db.appts ∧
    hourOfMinutes 600 = 10 ∧
    listEvents cx3Gc = [] ∧
    ¬(checkAvailability cx3Db cx3Gc 1 0).1.length = 8 ∧
    (checkAvailability cx3Db cx3Gc 1 0).1.length = 7 ∧
    ¬"10:00 AM" ∈ (checkAvailability cx3Db cx3Gc 1 0).1 := by
  decide

/-- C3 amended: for a date on which the doctor has exactly one persisted
appointment, starting at 10:00, and no calendar events, availability lookup
returns the seven remaining hourly business slots, with 10:00 AM excluded. -/
theorem C3_theorem (db : Db) (gc : GoogleCalendarTools) (did day : Nat)
    (a : Appointment)
    (hsched : getDoctorSchedule db did day = [a])
    (hhour : hourOfMinutes a.appointment_datetime = 10)
    (hev : listEvents gc = []) :
    (checkAvailability db gc did day).1
      = ["09:00 AM", "11:00 AM", "12:00 PM", "01:00 PM", "02:00 PM",
         "03:00 PM", "04:00 PM"] := by
  simp [checkAvailability, hsched, hev, findAvailableSlots, hhour]
  decide

theorem C3_witness :
    (checkAvailability cx3Db cx3Gc 1 0).1
      = ["09:00 AM", "11:00 AM", "12:00 PM", "01:00 PM", "02:00 PM",
         "03:00 PM", "04:00 PM"] :=
  C3_theorem cx3Db cx3Gc 1 0
    { id := 1, patient_id := 1, doctor_id := 1, appointment_datetime := 600,
      appointment_type := "checkup", status := .scheduled, notes := none,
      created_at := 0, updated_at := 0 }
    (by decide) (by decide) (by decide)

/-- C4: when every required slot is collected after merging and the merged
parameters carry a combined datetime, the scheduling flow finalizes with
status completed and the freshly inserted primary key as a non-null
appointment id. -/
theorem C4_theorem (msg : String) (collected : Params) (required : List String)
    (gc : GoogleCalendarTools) (db : Db) (clk : Clock) (now : Nat) (dt : Nat × Nat)
    (hmiss : (required.filter (fun p =>
        !(hasParam (mergeParams collected (extractSchedulingInfo msg clk)) p))).isEmpty
      = true)
    (hdt : (mergeParams collected (extractSchedulingInfo msg clk)).datetime = some dt) :
    (processSchedulingRequest msg collected required gc db clk now).1.status
        = "completed" ∧
    (processSchedulingRequest msg collected required gc db clk now).1.appointment_id
        = some db.nextId := by
  simp [processSchedulingRequest, hmiss, scheduleAppointment, hdt, createAppointment]

theorem C4_witness :
    (processSchedulingRequest "tomorrow 3 pm checkup general"
        { emptyParams with patient_name := some "John", patient_phone := some "123" }
        defaultRequiredParams ⟨none⟩ { appts := [], nextId := 1 } ⟨0, 0⟩ 0).1.status
        = "completed" ∧
    (processSchedulingRequest "tomorrow 3 pm checkup general"
        { emptyParams with patient_name := some "John", patient_phone := some "123" }
        defaultRequiredParams ⟨none⟩ { appts := [], nextId := 1 } ⟨0, 0⟩ 0).1.appointment_id
        = some 1 :=
  C4_theorem "tomorrow 3 pm checkup general"
    { emptyParams with patient_name := some "John", patient_phone := some "123" }
    defaultRequiredParams ⟨none⟩ { appts := [], nextId := 1 } ⟨0, 0⟩ 0 (1, 15)
    (by decide) (by decide)

end Clinic
